import Mathlib

/-!
# Verification of the finance_account reporting dashboard (src/main.py)

Shallow embedding of the ledger data model and the report-page computations of
`main.py`. Dates are modelled as day numbers (`Int`), a null/NaT cell as `none`.
Monetary cells are modelled as `Option Int`: `none` is a null/unparseable cell,
`some v` a parsed numeric value. Free-text columns are `String`.
-/

namespace FinanceAccount

/-- One ledger row, with the columns used by the report pages of main.py.
Date columns are post-parse (`pd.to_datetime(..., errors='coerce')`): `none`
models NaT. Numeric columns are raw cells: `none` models a missing or
unparseable cell (NaN before any `fillna`). -/
structure Row where
  voucher_no : String := ""
  date : Option Int := none
  invoice_date : Option Int := none
  due_date : Option Int := none
  payment_date : Option Int := none
  debit : Option Int := none
  credit : Option Int := none
  amount : Option Int := none
  bank_deposit : Option Int := none
  bank_withdrawal : Option Int := none
  category : String := ""
  sub_category : String := ""
  account_head : String := ""
  account_name : String := ""
  account_type : String := ""
  party_name : String := ""
  party_type : String := ""
  payment_method : String := ""
  status : String := ""
  deriving Repr, DecidableEq

/-! ## String helpers: the pandas `.str` operations used by main.py -/

/-- Does `pat` occur at the head of `cs`? (helper for substring search). -/
def prefMatch : List Char → List Char → Bool
  | [], _ => true
  | _ :: _, [] => false
  | p :: ps, c :: cs => p == c && prefMatch ps cs

/-- Does `pat` occur anywhere in `cs`? (helper for substring search). -/
def subMatch (pat : List Char) : List Char → Bool
  | [] => prefMatch pat []
  | c :: cs => prefMatch pat (c :: cs) || subMatch pat cs

/-- `str.lower()` on one cell (character-wise lowering). -/
def lowerStr (s : String) : String :=
  ⟨s.toList.map Char.toLower⟩

/-- `str.strip()` on one cell: drop leading and trailing whitespace. -/
def stripStr (s : String) : String :=
  ⟨((s.toList.dropWhile Char.isWhitespace).reverse.dropWhile Char.isWhitespace).reverse⟩

/-- `Series.str.contains(pat, case=False)` on one cell: case-insensitive
substring containment. -/
def containsCI (t pat : String) : Bool :=
  subMatch (lowerStr pat).toList (lowerStr t).toList

/-! ## Ledger loader (`load_data`, main.py lines 24-35) -/

/-- Outcome type of a loader call: either a normal return of a table, or a
raised error. `load_data` in main.py never raises: the `failure` constructor
models the exception channel Python always has available. -/
inductive LoadResult where
  | ledger (rows : List Row)
  | failure (msg : String)
  deriving Repr, DecidableEq

/-- Is this outcome a raised error rather than a returned table? -/
def LoadResult.isFailure : LoadResult → Bool
  | .ledger _ => false
  | .failure _ => true

/-- `load_data()` (main.py lines 24-35): if the Excel file exists, read it and
parse the four date columns leniently (unparseable → NaT, reflected here in the
`Option`-valued date fields of `Row`); numeric columns are returned as read,
without any coercion. If the file does not exist, `st.error(...)` is shown
(the `Bool` component) and an empty DataFrame is returned. -/
def load_data (fileExists : Bool) (source : List Row) : LoadResult × Bool :=
  if fileExists then (LoadResult.ledger source, false) else (LoadResult.ledger [], true)

/-! ## Receivables aging (main.py lines 1499-1547) -/

/-- `days_overdue = today - due_date` (main.py line 1525); null due_date gives
a null day count. -/
def days_overdue (today : Int) (due : Option Int) : Option Int :=
  due.map (fun d => today - d)

/-- `pd.cut(days, bins=[-1, 0, 30, 60, 90, inf], labels=[...])` (main.py lines
1526-1530): right-closed intervals `(-1,0]`, `(0,30]`, `(30,60]`, `(60,90]`,
`(90,inf)`; a value outside every bin (here: anything `≤ -1`) gets no label. -/
def cutBucket (d : Int) : Option String :=
  if -1 < d ∧ d ≤ 0 then some "Not Due"
  else if 0 < d ∧ d ≤ 30 then some "0-30 Days"
  else if 30 < d ∧ d ≤ 60 then some "31-60 Days"
  else if 60 < d ∧ d ≤ 90 then some "61-90 Days"
  else if 90 < d then some "90+ Days"
  else none

/-- The `aging_bucket` column of a row: `pd.cut` maps a null day count to a
null label. -/
def aging_bucket (d : Option Int) : Option String :=
  d.bind cutBucket

/-! ## Numeric coercion and sums -/

/-- `pd.to_numeric(col, errors='coerce').fillna(0)` on one cell, as done by the
report pages (e.g. main.py lines 223-226, 1020, 1637-1638, 1912): an already
numeric cell is kept, a null/unparseable one becomes 0; the resulting column
has no nulls. -/
def coerceNum (v : Option Int) : Option Int :=
  some (v.getD 0)

/-- `Series.sum()` over a column selected by `f`: pandas sums with
`skipna=True`, so a null cell contributes 0. After `fillna(0)` this is also
the exact column sum. -/
def sumOpt (f : Row → Option Int) (rows : List Row) : Int :=
  (rows.map (fun r => (f r).getD 0)).sum

/-! ## Date-range filtering -/

/-- One row's date cell against `[s, e]`: the pandas comparison
`col.dt.date >= s & col.dt.date <= e` is False on NaT, so a null date never
passes. -/
def inRange (d : Option Int) (s e : Int) : Bool :=
  match d with
  | some x => decide (s ≤ x) && decide (x ≤ e)
  | none => false

/-- Boolean-mask date filter used by every report page (e.g. main.py lines
276-279, 1037-1040, 1301, 1661-1664). -/
def dateFilter (col : Row → Option Int) (s e : Int) (rows : List Row) : List Row :=
  rows.filter (fun r => inRange (col r) s e)

/-- The MD Report's date-range step (main.py lines 1250-1253 and 1301):
`start_date > end_date` shows `st.error` and stops; otherwise the ledger is
filtered on the `date` column. -/
def mdReportDateStep (s e : Int) (rows : List Row) : Except String (List Row) :=
  if s > e then Except.error "End date must be after start date"
  else Except.ok (dateFilter (fun r => r.date) s e rows)

/-- The Cashbook's date-range step (main.py lines 275-279): no validation, the
mask is applied directly to the `payment_date` column. -/
def cashbookDateStep (s e : Int) (rows : List Row) : Except String (List Row) :=
  Except.ok (dateFilter (fun r => r.payment_date) s e rows)

/-! ## Cashbook (main.py lines 217-335) -/

/-- `payment_method.str.lower().str.contains('cash|ca', na=False)` (main.py
line 238): the regex alternation matches when the lowered text contains
"cash" or contains "ca". -/
def cash_df (rows : List Row) : List Row :=
  rows.filter (fun r => containsCI r.payment_method "cash" || containsCI r.payment_method "ca")

/-- `prev_start = date_range[0] - timedelta(days=days_diff+1)` with
`days_diff = (e - s).days` (main.py lines 296-297). -/
def prev_start (s e : Int) : Int :=
  s - ((e - s) + 1)

/-- `prev_end = date_range[0] - timedelta(days=1)` (main.py line 298). -/
def prev_end (s : Int) : Int :=
  s - 1

/-- `prev_period_df` (main.py lines 300-303): built from the FULL ledger `df`
(not from `cash_df`), date-masked on `payment_date` over the previous window. -/
def prev_period_df (rows : List Row) (s e : Int) : List Row :=
  dateFilter (fun r => r.payment_date) (prev_start s e) (prev_end s) rows

/-- `prev_debit = prev_period_df['debit'].sum()` (main.py line 305). -/
def prev_debit (rows : List Row) (s e : Int) : Int :=
  sumOpt Row.debit (prev_period_df rows s e)

/-- `prev_credit = prev_period_df['credit'].sum()` (main.py line 306). -/
def prev_credit (rows : List Row) (s e : Int) : Int :=
  sumOpt Row.credit (prev_period_df rows s e)

/-- `((total - prev)/prev*100) if prev > 0 else 0` (main.py lines 308-309):
the period-over-period percent change, guarded so that a non-positive
previous total yields 0 instead of a division. -/
def pct_change (cur prev : Int) : ℚ :=
  if 0 < prev then ((cur : ℚ) - (prev : ℚ)) / (prev : ℚ) * 100 else 0

/-! ## Payables and Receivables (main.py lines 1446-1534) -/

/-- `payable_df` (main.py lines 1455-1458): vendors whose status, lowered, is
not EQUAL to "paid" (an equality test, not a substring test). -/
def payable_df (rows : List Row) : List Row :=
  rows.filter (fun r =>
    lowerStr r.party_type == "vendor" && lowerStr r.status != "paid")

/-- `receivable_df` (main.py lines 1511-1514): party_type lowered contains
"customer", and status lowered contains neither "received" nor "paid". -/
def receivable_df (rows : List Row) : List Row :=
  rows.filter (fun r =>
    containsCI r.party_type "customer" &&
      !(containsCI r.status "received" || containsCI r.status "paid"))

/-- `total_receivable = receivable_df['amount'].sum()` (main.py line 1533):
the `amount` column is summed WITHOUT any numeric coercion on this page;
pandas skips nulls, so a null amount contributes 0. -/
def total_receivable (rows : List Row) : Int :=
  sumOpt Row.amount (receivable_df rows)

/-! ## Balance sheet (main.py lines 1905-1937) -/

/-- `account_type.astype(str).str.strip().str.lower()` (main.py line 1913). -/
def normType (s : String) : String :=
  lowerStr (stripStr s)

/-- `valid_types` (main.py line 1916). -/
def validTypes : List String :=
  ["asset", "liability", "equity", "capital", "retained earnings"]

/-- The `.replace({'capital': 'equity', 'retained earnings': 'equity'})`
mapping (main.py lines 1920-1923). -/
def bsReplace (t : String) : String :=
  if t == "capital" || t == "retained earnings" then "equity" else t

/-- Balance-sheet preparation (main.py lines 1912-1913): coerce `amount`
and normalize `account_type` in place. -/
def bsPrep (rows : List Row) : List Row :=
  rows.map (fun r =>
    { r with amount := coerceNum r.amount, account_type := normType r.account_type })

/-- `df_filtered` (main.py lines 1917-1923): keep rows whose normalized type is
valid, then fold capital/retained earnings into equity. -/
def bs_filtered (rows : List Row) : List Row :=
  ((bsPrep rows).filter (fun r => validTypes.contains r.account_type)).map
    (fun r => { r with account_type := bsReplace r.account_type })

/-- `assets_df` (main.py line 1930). -/
def assets_df (rows : List Row) : List Row :=
  (bs_filtered rows).filter (fun r => r.account_type == "asset")

/-- `liabilities_df` (main.py line 1931). -/
def liabilities_df (rows : List Row) : List Row :=
  (bs_filtered rows).filter (fun r => r.account_type == "liability")

/-- `equity_df` (main.py line 1932). -/
def equity_df (rows : List Row) : List Row :=
  (bs_filtered rows).filter (fun r => r.account_type == "equity")

/-- `total_assets` (main.py line 1935). -/
def total_assets (rows : List Row) : Int :=
  sumOpt Row.amount (assets_df rows)

/-- `total_liabilities` (main.py line 1936). -/
def total_liabilities (rows : List Row) : Int :=
  sumOpt Row.amount (liabilities_df rows)

/-- `total_equity = equity_df['amount'].sum() if not equity_df.empty else
(total_assets - total_liabilities)` (main.py line 1937). -/
def total_equity (rows : List Row) : Int :=
  if (equity_df rows).isEmpty then total_assets rows - total_liabilities rows
  else sumOpt Row.amount (equity_df rows)

/-! ## Bank Transactions (main.py lines 1628-1682) -/

/-- Page preparation (main.py lines 1637-1639): coerce the two bank numeric
columns (payment_date is already parsed in the model). -/
def bankTxnsPrep (rows : List Row) : List Row :=
  rows.map (fun r =>
    { r with bank_deposit := coerceNum r.bank_deposit,
             bank_withdrawal := coerceNum r.bank_withdrawal })

/-- `bank_df` (main.py lines 1642-1646): any of account_head, category,
sub_category contains "Bank" or "Cash" case-insensitively. -/
def bank_df (rows : List Row) : List Row :=
  rows.filter (fun r =>
    containsCI r.account_head "bank" || containsCI r.account_head "cash" ||
      containsCI r.category "bank" || containsCI r.category "cash" ||
        containsCI r.sub_category "bank" || containsCI r.sub_category "cash")

/-- The three displayed Bank Txns metrics. -/
structure BankMetrics where
  total_deposit : Int
  total_withdrawal : Int
  net_flow : Int
  deriving Repr, DecidableEq

/-- The Bank Txns page over a chosen date range `[s, e]` (main.py lines
1637-1682): totals are computed on `bank_df` BEFORE the date mask is applied
(lines 1654-1657 precede lines 1660-1664); the masked table feeds only the
charts and tables. Returns (displayed metrics, date-filtered table). -/
def bankTxnsPage (rows : List Row) (s e : Int) : BankMetrics × List Row :=
  let b := bank_df (bankTxnsPrep rows)
  let td := sumOpt Row.bank_deposit b
  let tw := sumOpt Row.bank_withdrawal b
  ({ total_deposit := td, total_withdrawal := tw, net_flow := td - tw },
    dateFilter (fun r => r.payment_date) s e b)

/-! ## Sample rows used in concrete evaluations -/

/-- A row kept by the cashbook date filter over `[0, 10]`. -/
def sampleInRange : Row :=
  { payment_date := some 5, debit := some 100, credit := some 40 }

/-- A vendor row whose status contains "paid" as a substring but is not equal
to "paid". -/
def rowPaidInFull : Row :=
  { party_type := "Vendor", status := "Paid in full", amount := some 250 }

/-- A customer row with a null `amount` cell. -/
def rowNullAmount : Row :=
  { party_type := "Customer", status := "Pending", amount := none }

/-- An asset account row for the balance sheet. -/
def rowAsset : Row :=
  { account_type := "Asset", account_name := "Cash at hand", amount := some 100 }

/-- A liability account row for the balance sheet. -/
def rowLiab : Row :=
  { account_type := "Liability", account_name := "Bank loan", amount := some 40 }

/-! ## Theorems -/

/-- C1 counterexample: `days_overdue = -2` (due date two days in the future)
satisfies `days_overdue ≤ 0`, yet `pd.cut` over bins `[-1, 0, 30, 60, 90, inf]`
assigns it NO bucket (the value lies left of every bin), not "Not Due". -/
theorem aging_bucket_negative_cex :
    (-2 : Int) ≤ 0 ∧ aging_bucket (some (-2)) = none ∧
      aging_bucket (some (-2)) ≠ some "Not Due" := by
  refine ⟨by norm_num, rfl, by simp [aging_bucket, cutBucket]⟩

/-- C1 amended: the aging bucket is a pure function of `days_overdue` with
right-closed edges `(-1,0] ↦ "Not Due"`, `(0,30]`, `(30,60]`, `(60,90]`,
`(90,∞)`; so 0 ↦ "Not Due", 1..30 ↦ "0-30 Days", 31..60 ↦ "31-60 Days",
61..90 ↦ "61-90 Days", ≥ 91 ↦ "90+ Days", while `days_overdue ≤ -1` gets no
bucket at all, and a null `due_date` (null day count) gets no bucket. -/
theorem aging_bucket_edges (d : Int) :
    aging_bucket none = none ∧
    (d ≤ -1 → aging_bucket (some d) = none) ∧
    (d = 0 → aging_bucket (some d) = some "Not Due") ∧
    (1 ≤ d ∧ d ≤ 30 → aging_bucket (some d) = some "0-30 Days") ∧
    (31 ≤ d ∧ d ≤ 60 → aging_bucket (some d) = some "31-60 Days") ∧
    (61 ≤ d ∧ d ≤ 90 → aging_bucket (some d) = some "61-90 Days") ∧
    (91 ≤ d → aging_bucket (some d) = some "90+ Days") := by
  refine ⟨rfl, ?_, ?_, ?_, ?_, ?_, ?_⟩ <;> intro h <;>
    simp only [aging_bucket, Option.some_bind, cutBucket] <;>
      split_ifs <;> first | rfl | omega

/-- C1 witness: concrete boundary evaluations through `aging_bucket_edges`. -/
theorem aging_bucket_edges_witness :
    aging_bucket (some 45) = some "31-60 Days" ∧
      aging_bucket (some 91) = some "90+ Days" :=
  ⟨(aging_bucket_edges 45).2.2.2.2.1 (by norm_num),
    (aging_bucket_edges 91).2.2.2.2.2.2 (by norm_num)⟩

/-- C4: the cashbook's previous period is `[s - (e - s + 1), s - 1]`, and the
percent change is 0 when the previous total is 0 (never a division), and the
usual `(cur - prev)/prev * 100` when the previous total is positive. -/
theorem cashbook_prev_period_delta (s e cur prev : Int) :
    prev_start s e = s - ((e - s) + 1) ∧
    prev_end s = s - 1 ∧
    (prev = 0 → pct_change cur prev = 0) ∧
    (0 < prev →
      pct_change cur prev = ((cur : ℚ) - (prev : ℚ)) / (prev : ℚ) * 100) := by
  refine ⟨rfl, rfl, ?_, ?_⟩ <;> intro h
  · simp [pct_change, h]
  · rw [pct_change, if_pos h]

/-- C4 witness: a zero previous total yields 0; a positive one yields the
formula (here `(150-100)/100*100 = 50`). -/
theorem cashbook_prev_period_delta_witness :
    pct_change 5 0 = 0 ∧ pct_change 150 100 = 50 := by
  constructor
  · exact (cashbook_prev_period_delta 0 0 5 0).2.2.1 rfl
  · rw [(cashbook_prev_period_delta 0 0 150 100).2.2.2 (by norm_num)]
    norm_num

/-- C8: under `s ≤ e`, a row survives the date filter iff it is in the input
and its date cell is non-null with value in `[s, e]`; in particular every row
with a null date cell is excluded. -/
theorem dateFilter_mem (col : Row → Option Int) (s e : Int) (rows : List Row)
    (r : Row) (hse : s ≤ e) :
    r ∈ dateFilter col s e rows ↔
      r ∈ rows ∧ ∃ d, col r = some d ∧ s ≤ d ∧ d ≤ e := by
  simp only [dateFilter, List.mem_filter]
  refine and_congr_right fun _ => ?_
  cases h : col r with
  | none => simp [inRange, h]
  | some x => simp [inRange, h, and_assoc]

/-- C8 witness: a concrete in-range row is kept by the filter. -/
theorem dateFilter_mem_witness :
    sampleInRange ∈ dateFilter (fun r => r.payment_date) 0 10 [sampleInRange] :=
  (dateFilter_mem (fun r => r.payment_date) 0 10 [sampleInRange] sampleInRange
      (by norm_num)).mpr
    ⟨List.mem_singleton.mpr rfl, 5, rfl, by norm_num, by norm_num⟩

/-- C3 counterexample: the Cashbook date filter performs no validation on a
reversed range `[5, 3]`: it returns a normal (empty) result, not an error. -/
theorem cashbook_reversed_range_cex :
    (5 : Int) > 3 ∧ cashbookDateStep 5 3 [sampleInRange] = Except.ok [] :=
  ⟨by norm_num, rfl⟩

/-- C3 amended: only the MD Report validates a reversed range (explicit error);
the Cashbook filter silently applies the mask, which on `s > e` keeps nothing. -/
theorem reversed_range_behavior (s e : Int) (rows : List Row) (h : s > e) :
    mdReportDateStep s e rows = Except.error "End date must be after start date" ∧
    cashbookDateStep s e rows = Except.ok [] := by
  constructor
  · rw [mdReportDateStep, if_pos h]
  · rw [cashbookDateStep]
    congr 1
    rw [dateFilter, List.filter_eq_nil_iff]
    intro r _
    cases hd : r.payment_date with
    | none => simp [inRange, hd]
    | some x => simp only [inRange, hd, Bool.and_eq_true, decide_eq_true_eq]; omega

/-- C3 witness: the amended behavior at the concrete reversed range `[5, 3]`. -/
theorem reversed_range_behavior_witness :
    mdReportDateStep 5 3 [] = Except.error "End date must be after start date" ∧
    cashbookDateStep 5 3 [] = Except.ok [] :=
  reversed_range_behavior 5 3 [] (by norm_num)

/-- C5 counterexample: with the Excel file missing, `load_data` does NOT
produce a failure outcome: it returns an (empty) ledger, with an on-screen
error message as its only signal. -/
theorem load_missing_cex :
    (load_data false [sampleInRange]).1 = LoadResult.ledger [] ∧
    (load_data false [sampleInRange]).1.isFailure = false :=
  ⟨rfl, rfl⟩

/-- C5 amended: when the source file is missing, the loader displays an error
message and returns an empty ledger by normal return — there is no distinct
`LoadError` failure outcome. -/
theorem load_missing_amended (source : List Row) :
    load_data false source = (LoadResult.ledger [], true) :=
  rfl

/-- C2 counterexample: the loader performs no numeric coercion: a ledger whose
only row has a null `amount` cell is returned by `load_data` with the null
still present in the numeric column. -/
theorem loader_null_numeric_cex :
    (load_data true [rowNullAmount]).1 = LoadResult.ledger [rowNullAmount] ∧
    rowNullAmount.amount = none :=
  ⟨rfl, rfl⟩

/-- C2 amended: the loader returns numeric cells as read (nulls possible); the
per-page coercion `pd.to_numeric(...).fillna(0)` leaves no null (null ↦ 0,
parsed values kept); and the Receivables total sums the uncoerced `amount`
column with nulls skipped (each null contributing 0), so no null/NaN reaches
that summary value. -/
theorem numeric_coercion_amended (rows : List Row) (v : Option Int) (x : Int) :
    (load_data true rows).1 = LoadResult.ledger rows ∧
    coerceNum v ≠ none ∧
    coerceNum none = some 0 ∧
    coerceNum (some x) = some x ∧
    total_receivable rows =
      ((receivable_df rows).map (fun r => r.amount.getD 0)).sum :=
  ⟨rfl, by simp [coerceNum], rfl, rfl, rfl⟩

/-- C6 counterexample: a vendor row with status "Paid in full" contains "paid"
as a case-insensitive substring, yet it is KEPT in `payable_df` (the payables
page tests equality with "paid", not substring containment). -/
theorem payable_substring_cex :
    containsCI rowPaidInFull.status "paid" = true ∧
    rowPaidInFull ∈ payable_df [rowPaidInFull] := by
  refine ⟨by decide, ?_⟩
  have h : payable_df [rowPaidInFull] = [rowPaidInFull] := by decide
  rw [h]
  exact List.mem_singleton.mpr rfl

/-- C6 amended: a payables row is settled (excluded from `payable_df`) exactly
when its status, lowered, EQUALS "paid"; a receivables row is settled
(excluded from `receivable_df`) exactly when its status contains "received"
or "paid" case-insensitively. -/
theorem settled_status_semantics (rows : List Row) (r : Row) :
    (r ∈ payable_df rows ↔
      r ∈ rows ∧ lowerStr r.party_type = "vendor" ∧ lowerStr r.status ≠ "paid") ∧
    (r ∈ receivable_df rows ↔
      r ∈ rows ∧ containsCI r.party_type "customer" = true ∧
        containsCI r.status "received" = false ∧
          containsCI r.status "paid" = false) := by
  constructor
  · simp [payable_df, List.mem_filter]
  · simp [receivable_df, List.mem_filter, and_assoc]

/-- C7: every row kept for the balance sheet is classified as asset, liability
or equity; "capital" and "retained earnings" normalize into "equity"; and
total equity falls back to `assets - liabilities` exactly when the equity
subset is empty, otherwise it is the sum of the equity rows' amounts. -/
theorem balance_sheet_equity (rows : List Row) :
    (∀ r ∈ bs_filtered rows,
      r.account_type = "asset" ∨ r.account_type = "liability" ∨
        r.account_type = "equity") ∧
    bsReplace "capital" = "equity" ∧
    bsReplace "retained earnings" = "equity" ∧
    ((equity_df rows).isEmpty = true →
      total_equity rows = total_assets rows - total_liabilities rows) ∧
    ((equity_df rows).isEmpty = false →
      total_equity rows = sumOpt Row.amount (equity_df rows)) := by
  refine ⟨?_, rfl, rfl, ?_, ?_⟩
  · intro r hr
    simp only [bs_filtered, List.mem_map, List.mem_filter] at hr
    obtain ⟨r', ⟨_, hvalid⟩, rfl⟩ := hr
    have hmem : r'.account_type ∈ validTypes := by
      simpa using hvalid
    simp only [validTypes, List.mem_cons, List.not_mem_nil, or_false] at hmem
    rcases hmem with h | h | h | h | h <;> simp [bsReplace, h]
  · intro h
    rw [total_equity, if_pos h]
  · intro h
    rw [total_equity, if_neg (by simp [h])]

/-- C7 witness: with one asset row (100) and one liability row (40) and no
equity rows, the equity fallback yields 60. -/
theorem balance_sheet_equity_witness :
    total_equity [rowAsset, rowLiab] = 60 := by
  rw [(balance_sheet_equity [rowAsset, rowLiab]).2.2.2.1 (by decide)]
  decide

/-- C9: the three Bank Txns metrics are computed over the bank-classified
subset before the date mask: any two date-range selections display identical
metrics, always equal to the all-time totals of the bank subset. -/
theorem bank_metrics_prefilter (rows : List Row) (s1 e1 s2 e2 : Int) :
    (bankTxnsPage rows s1 e1).1 = (bankTxnsPage rows s2 e2).1 ∧
    (bankTxnsPage rows s1 e1).1.total_deposit =
      sumOpt Row.bank_deposit (bank_df (bankTxnsPrep rows)) ∧
    (bankTxnsPage rows s1 e1).1.total_withdrawal =
      sumOpt Row.bank_withdrawal (bank_df (bankTxnsPrep rows)) ∧
    (bankTxnsPage rows s1 e1).1.net_flow =
      sumOpt Row.bank_deposit (bank_df (bankTxnsPrep rows)) -
        sumOpt Row.bank_withdrawal (bank_df (bankTxnsPrep rows)) :=
  ⟨rfl, rfl, rfl, rfl⟩

/-- Rewriting the payment_method of a row (all other columns untouched). -/
def setMethod (f : Row → String) (r : Row) : Row :=
  { r with payment_method := f r }

lemma dateFilter_payment_date_map_setMethod (f : Row → String) (s e : Int)
    (rows : List Row) :
    dateFilter (fun r => r.payment_date) s e (rows.map (setMethod f)) =
      (dateFilter (fun r => r.payment_date) s e rows).map (setMethod f) := by
  induction rows with
  | nil => rfl
  | cons r rs ih =>
    simp only [List.map_cons, dateFilter, List.filter_cons] at ih ⊢
    have hpm : (setMethod f r).payment_date = r.payment_date := rfl
    rw [hpm]
    by_cases h : inRange r.payment_date s e = true
    · simp [h, ih]
    · simp [h, ih]

lemma sumOpt_map_setMethod (g : Row → Option Int)
    (hg : ∀ f r, g (setMethod f r) = g r) (f : Row → String) (l : List Row) :
    sumOpt g (l.map (setMethod f)) = sumOpt g l := by
  simp only [sumOpt, List.map_map]
  congr 1
  exact List.map_congr_left fun r _ => by simp [Function.comp, hg]

/-- C10: the cashbook's previous-period totals are taken over the ENTIRE
ledger restricted only by `payment_date` (not over the cash-filtered subset):
they equal the date-masked full-ledger sums, and rewriting every row's
payment_method arbitrarily leaves them unchanged. -/
theorem cashbook_prev_totals_full_ledger (rows : List Row) (s e : Int)
    (f : Row → String) :
    prev_debit rows s e =
      ((rows.filter (fun r =>
          inRange r.payment_date (prev_start s e) (prev_end s))).map
        (fun r => r.debit.getD 0)).sum ∧
    prev_credit rows s e =
      ((rows.filter (fun r =>
          inRange r.payment_date (prev_start s e) (prev_end s))).map
        (fun r => r.credit.getD 0)).sum ∧
    prev_debit (rows.map (setMethod f)) s e = prev_debit rows s e ∧
    prev_credit (rows.map (setMethod f)) s e = prev_credit rows s e := by
  refine ⟨rfl, rfl, ?_, ?_⟩
  · rw [prev_debit, prev_period_df, dateFilter_payment_date_map_setMethod,
      sumOpt_map_setMethod Row.debit (fun _ _ => rfl)]
    rfl
  · rw [prev_credit, prev_period_df, dateFilter_payment_date_map_setMethod,
      sumOpt_map_setMethod Row.credit (fun _ _ => rfl)]
    rfl

end FinanceAccount
